import Mathlib

/-!
Verification of the uweb routing/dispatch core (uweb.go).

This development is a shallow embedding of the dispatch core: Response and
ErrorResponse values, the route/router matching structures, the recovery
logic of findAndCall, the result normalization of cast, and the
registration-time target-signature validation of wrapTarget.

Modelling conventions:
  the compiled regular expression of a route is embedded as its observable
  matching function of type String to Option (List String), standing for
  regexp FindStringSubmatch (none means no match, some values means a match
  whose head is the full match followed by the capture groups);
  a Go panic is embedded as a Fault value, and functions that can panic
  return an Out value; byte slices are embedded as String; the Go routes
  field of router is a map whose iteration order is unspecified, so
  router.FindTarget takes the list of routes in the order the map range
  loop presents them.
-/

namespace Uweb

/-- Association-list lookup standing for a read of a Go map with string keys. -/
def lookupStr {α : Type} : List (String × α) → String → Option α
  | [], _ => none
  | (k0, v0) :: rest, k => if k0 = k then some v0 else lookupStr rest k

/-- Association-list insert standing for a write to a Go map with string keys:
existing keys are overwritten in place, fresh keys are appended. -/
def insertStr {α : Type} : List (String × α) → String → α → List (String × α)
  | [], k, v => [(k, v)]
  | (k0, v0) :: rest, k, v =>
      if k0 = k then (k, v) :: rest else (k0, v0) :: insertStr rest k v

/-- Association-list lookup standing for a read of a Go map with int keys. -/
def lookupInt {α : Type} : List (Int × α) → Int → Option α
  | [], _ => none
  | (k0, v0) :: rest, k => if k0 = k then some v0 else lookupInt rest k

/-- Response embeds the Response struct: a header multimap, a status code and
a body.  The Content byte slice is embedded as a String. -/
structure Response where
  header : List (String × List String)
  Code : Int
  Content : String
deriving DecidableEq

/-- NewResponse from uweb.go: status 200 and a text-html content type. -/
def NewResponse : Response :=
  { header := [("Content-Type", ["text/html; charset=utf-8"])],
    Code := 200,
    Content := "" }

/-- Merge from uweb.go: only the status code is copied from the argument;
the headers are left alone (the source carries a TODO for them). -/
def Response.Merge (r : Response) (resp : Response) : Response :=
  { r with Code := resp.Code }

/-- Wire-level output of WriteResponse: the headers written, the status
written by WriteHeader, and the bytes written for the body. -/
structure WireOutput where
  headers : List (String × List String)
  status : Int
  body : String
deriving DecidableEq

/-- WriteResponse from uweb.go: set Content-Length, emit all headers, write
the status code, then write the content.  The body bytes are written
unconditionally; the function never inspects the request method. -/
def Response.WriteResponse (r : Response) : WireOutput :=
  { headers := insertStr r.header "Content-Length" [toString r.Content.length],
    status := r.Code,
    body := r.Content }

/-- ErrorResponse embeds a Response plus a message and a captured stack. -/
structure ErrorResponse where
  response : Response
  Stack : String
  Message : String
deriving DecidableEq

/-- NewError from uweb.go: a fresh Response whose code is overwritten with
the given code and whose content is the message; the stack starts empty. -/
def NewError (code : Int) (message : String) : ErrorResponse :=
  { response := { NewResponse with Code := code, Content := message },
    Stack := "",
    Message := message }

/-- Upper-casing helper standing for strings.ToUpper, computed on the
character list of the string so that it reduces inside the kernel. -/
def toUpperStr (s : String) : String :=
  String.mk (s.data.map Char.toUpper)

/-- Everything after the first newline of the character list, or none when
the list has no newline, mirroring IndexRune followed by the slice. -/
def dropThroughNewline : List Char → Option (List Char)
  | [] => none
  | c :: rest => if c = '\n' then some rest else dropThroughNewline rest

/-- Stack-cleaning loop of SetStack: drop everything up to and including the
first newline, n times; when no newline is left the loop breaks and the
string is kept as is. -/
def stripLines : Nat → String → String
  | 0, s => s
  | n + 1, s =>
      match dropThroughNewline s.data with
      | none => s
      | some rest => stripLines n (String.mk rest)

/-- SetStack from uweb.go: record the raw runtime stack, stripping the first
six lines when clean is requested.  The raw stack text delivered by the
runtime is passed in as rawStack. -/
def ErrorResponse.SetStack (e : ErrorResponse) (clean : Bool) (rawStack : String) :
    ErrorResponse :=
  { e with Stack := if clean then stripLines 6 rawStack else rawStack }

/-- Context carries the per-request state used by the dispatch core: the
in-progress Response draft, the request method and the request path.
The request handle and parsed query values of the source are not read by
any code under verification and are omitted. -/
structure Context where
  Response : Response
  Method : String
  Path : String
deriving DecidableEq

/-- NewContext builds the per-request context with a fresh draft Response. -/
def NewContext (method path : String) : Context :=
  { Response := NewResponse, Method := method, Path := path }

/-- Fault is the value carried by a Go panic as seen by the recover block of
findAndCall: a pointer to a Response, a pointer to an ErrorResponse, or
any other value, kept as its fmt.Sprint description. -/
inductive Fault where
  | resp (r : Response)
  | errResp (e : ErrorResponse)
  | other (description : String)
deriving DecidableEq

/-- Abort from uweb.go: panic with a fresh ErrorResponse carrying the code
and the message. -/
def Abort (code : Int) (message : String) : Fault :=
  Fault.errResp (NewError code message)

/-- Out is the outcome of running a piece of Go code that may panic. -/
inductive Out (α : Type) where
  | ok (a : α)
  | panicked (p : Fault)
deriving DecidableEq

/-- A route from uweb.go: a compiled pattern, embedded as its matching
function, plus the per-method table of targets.  The target payload is a
type parameter so that routing facts can be stated for any target type. -/
structure route (α : Type) where
  re : String → Option (List String)
  targets : List (String × α)

/-- AddTarget from uweb.go: an empty method means ANY, and the key is stored
upper-cased, overwriting any previous target for the same key. -/
def route.AddTarget {α : Type} (r : route α) (method : String) (t : α) : route α :=
  let m := if method = "" then "ANY" else method
  { r with targets := insertStr r.targets (toUpperStr m) t }

/-- Parse from uweb.go: run FindStringSubmatch; an empty result means no
match, otherwise the full match at index zero is dropped and the capture
groups are returned. -/
def route.Parse {α : Type} (r : route α) (path : String) : Option (List String) :=
  match r.re path with
  | none => none
  | some values => if values.length = 0 then none else some (values.drop 1)

/-- TargetForMethod from uweb.go: look up the upper-cased method exactly,
fall back to GET when the method is HEAD, then fall back to ANY. -/
def route.TargetForMethod {α : Type} (r : route α) (method : String) : Option α :=
  let m := toUpperStr method
  match lookupStr r.targets m with
  | some t => some t
  | none =>
      match (if m = "HEAD" then lookupStr r.targets "GET" else none) with
      | some t => some t
      | none => lookupStr r.targets "ANY"

/-- Loop body of FindTarget: scan the routes in the order the map presents
them and keep the first whose Parse accepts the path. -/
def findFirstMatch {α : Type} : List (route α) → String → Option (route α × List String)
  | [], _ => none
  | r :: rest, path =>
      match r.Parse path with
      | some args => some (r, args)
      | none => findFirstMatch rest path

/-- Result of FindTarget: either a resolved target with its captured
arguments, or the ErrorResponse of the 404 or 405 abort panic. -/
inductive RouteResult (α : Type) where
  | found (t : α) (args : List String)
  | aborted (e : ErrorResponse)
deriving DecidableEq

/-- FindTarget from uweb.go.  The argument rs is the sequence of routes in
the order the range loop over the routes map presents them; Go leaves that
order unspecified.  No match aborts with 404, a match without a usable
method target aborts with 405, both panics carried here as aborted
results. -/
def router.FindTarget {α : Type} (rs : List (route α)) (path method : String) :
    RouteResult α :=
  match findFirstMatch rs path with
  | none => RouteResult.aborted (NewError 404 "Not Found")
  | some (r, args) =>
      match r.TargetForMethod method with
      | none => RouteResult.aborted (NewError 405 "Method not allowed")
      | some t => RouteResult.found t args

/-- Value is the dynamic type of one entry of the results slice handed to
cast, mirroring the cases of the type switch in cast: a string, a byte
slice, a pointer to an ErrorResponse, a pointer to a Response, an io
Reader (embedded as the text it drains to), and the default case split by
whether json.Marshal succeeds on the value (jsonable carries the
serialized text) or fails (unserializable). -/
inductive Value where
  | str (s : String)
  | bytes (b : String)
  | errorResponse (e : ErrorResponse)
  | response (r : Response)
  | reader (content : String)
  | jsonable (json : String)
  | unserializable (typeName : String)
deriving DecidableEq

/-- A target as invoked through the wrapped callable: it reads the context
and the captured arguments, may mutate the context through its Response
pointer, and either returns a results slice or panics. -/
def TargetFun : Type := Context → List String → Context × Out (List Value)

/-- An error handler as invoked through its wrapped callable. -/
def ErrHandler : Type := Context → ErrorResponse → Context × Out (List Value)

/-- The errorHandlers map of an App, keyed by status code. -/
def HandlerMap : Type := List (Int × ErrHandler)

/-- Recover block of findAndCall: a panicking Response or ErrorResponse
becomes the single result value; any other fault is wrapped into a fresh
500 ErrorResponse whose message is the fault description, whose content is
overwritten with Internal Server Error, and whose stack is captured with
SetStack true.  The capture happens unconditionally; this code never reads
Config.Debug. -/
def recoveredValue (p : Fault) (rawStack : String) : Value :=
  match p with
  | Fault.resp r => Value.response r
  | Fault.errResp e => Value.errorResponse e
  | Fault.other d =>
      Value.errorResponse
        (ErrorResponse.SetStack
          { NewError 500 d with response := { (NewError 500 d).response with Content := "Internal Server Error" } }
          true rawStack)

/-- findAndCall from uweb.go: resolve the target through the router and call
it; the deferred recover turns any panic raised by FindTarget (the 404 and
405 aborts) or by the target itself into a one-element results slice.
rawStack is the stack text the runtime would deliver inside the recover. -/
def App.findAndCall (rs : List (route TargetFun)) (rawStack : String) (ctx : Context) :
    Context × List Value :=
  match router.FindTarget rs ctx.Path ctx.Method with
  | RouteResult.aborted e => (ctx, [recoveredValue (Fault.errResp e) rawStack])
  | RouteResult.found target args =>
      match target ctx args with
      | (ctx2, Out.ok vals) => (ctx2, vals)
      | (ctx2, Out.panicked p) => (ctx2, [recoveredValue p rawStack])

/-- Head part of the default error page, up to the point where the message
is interpolated; the Sprintf template of defaultErrorHandler splits as
errorBodyPre code, then the content, then errorBodyPost detail. -/
def errorBodyPre (code : Int) : String :=
  "<!DOCTYPE>\n<html>\n\t<head>\n\t\t<title>Error: " ++ toString code ++
  "</title>\n\t</head>\n\t<body>\n\t\t<h1>" ++ toString code ++ " "

/-- Tail part of the default error page after the interpolated message. -/
def errorBodyPost (detail : String) : String :=
  "</h1>\n\t\t" ++ detail ++ "\n\t</body>\n</html>"

/-- The full default error page of defaultErrorHandler. -/
def defaultErrorBody (code : Int) (content detail : String) : String :=
  errorBodyPre code ++ content ++ errorBodyPost detail

/-- Debug detail block of defaultErrorHandler: rendered only when debug mode
is on and the captured stack is not empty. -/
def errorDetail (debug : Bool) (e : ErrorResponse) : String :=
  if debug && (e.Stack != "") then
    "<div>" ++ e.Message ++ "</div><pre>" ++ e.Stack ++ "</pre>"
  else ""

/-- defaultErrorHandler from uweb.go: render the HTML error page for the
ErrorResponse and return it as a single string result.  The context
argument is accepted but never read, as in the source. -/
def defaultErrorHandler (debug : Bool) (_ctx : Context) (e : ErrorResponse) : List Value :=
  [Value.str (defaultErrorBody e.response.Code e.response.Content (errorDetail debug e))]

/-- cast from uweb.go: normalize a results slice into a Response.  An empty
slice yields the draft Response of the context; more than one value is a
panic; an ErrorResponse is merged into the draft and re-cast through a
registered handler for its code, or through the default error handler;
a Response value is returned as is; a serialization failure in the default
branch is a panic.  The fuel argument bounds the re-cast recursion, which
the Go source leaves unbounded; every theorem below supplies enough fuel
that the exhaustion branch is never taken. -/
def cast (handlers : HandlerMap) (debug : Bool) :
    Nat → Context → List Value → Out Response
  | _, ctx, [] => Out.ok ctx.Response
  | _, _, _ :: _ :: _ => Out.panicked (Fault.other "Too many values returned from target")
  | fuel, ctx, [result] =>
      match result with
      | Value.str s => Out.ok { ctx.Response with Content := s }
      | Value.bytes bs => Out.ok { ctx.Response with Content := bs }
      | Value.errorResponse er =>
          let ctx2 : Context := { ctx with Response := ctx.Response.Merge er.response }
          (match lookupInt handlers er.response.Code with
           | some h =>
               (match fuel with
                | 0 => Out.panicked (Fault.other "cast recursion fuel exhausted")
                | fuel2 + 1 =>
                    (match h ctx2 er with
                     | (ctx3, Out.ok vals) => cast handlers debug fuel2 ctx3 vals
                     | (_, Out.panicked p) => Out.panicked p))
           | none =>
               (match fuel with
                | 0 => Out.panicked (Fault.other "cast recursion fuel exhausted")
                | fuel2 + 1 =>
                    cast handlers debug fuel2 ctx2 (defaultErrorHandler debug ctx2 er)))
      | Value.response r => Out.ok r
      | Value.reader content => Out.ok { ctx.Response with Content := content }
      | Value.jsonable json =>
          Out.ok { ctx.Response with
                     Content := json,
                     header := insertStr ctx.Response.header "Content-Type" ["application/json"] }
      | Value.unserializable _ =>
          Out.panicked (Fault.other "Unknown response type returned from view function")

/-- Handle from uweb.go: findAndCall under its recover, then cast on the
outcome.  The recover of findAndCall has already returned before cast
runs, so a panic raised inside cast propagates out of Handle. -/
def App.Handle (rs : List (route TargetFun)) (handlers : HandlerMap) (debug : Bool)
    (fuel : Nat) (rawStack : String) (ctx : Context) : Out Response :=
  let res := App.findAndCall rs rawStack ctx
  cast handlers debug fuel res.1 res.2

/-- Whether the outcome of Handle is an ordinary returned Response. -/
def Out.isOkResponse : Out Response → Bool
  | Out.ok _ => true
  | Out.panicked _ => false

/-- ArgType is the reflected type of one declared parameter of a registered
target, as far as the validation in wrapTarget distinguishes parameters:
a pointer to Context, the string kind, a slice of strings, or anything
else (carrying its type name). -/
inductive ArgType where
  | contextPtr
  | stringT
  | stringSlice
  | other (name : String)
deriving DecidableEq

/-- argIsContext from uweb.go: the type is a pointer whose element type is
Context. -/
def argIsContext (t : ArgType) : Bool :=
  t = ArgType.contextPtr

/-- argIsStringSlice from uweb.go: the type is a slice whose element kind is
string. -/
def argIsStringSlice (t : ArgType) : Bool :=
  t = ArgType.stringSlice

/-- Whether the reflected kind of the type is the string kind. -/
def argKindIsString (t : ArgType) : Bool :=
  t = ArgType.stringT

/-- Validation phase of wrapTarget from uweb.go: with no parameters, or only
the leading context parameter, the target is valid; otherwise all the
remaining parameters must have string kind, or the first remaining
parameter must be a string slice; anything else panics. -/
def wrapTargetValid (sig : List ArgType) : Bool :=
  match sig with
  | [] => true
  | a0 :: rest =>
      let args := if argIsContext a0 then rest else a0 :: rest
      match args with
      | [] => true
      | b0 :: _ => args.all argKindIsString || argIsStringSlice b0

/-- Panic message of wrapTarget for an invalid signature.  The source
interpolates the string form of the rejected function between the two
sentences; the embedding keeps the fixed surrounding text. -/
def invalidTargetMsg : String :=
  "Invalid target function. Incorrect argument types."

/-- The routes map of the router, as its entry list in insertion order. -/
structure routerState (α : Type) where
  routes : List (String × route α)

/-- newRoute from uweb.go: compile the pattern; a compile failure is
returned as an error.  The compile argument stands for regexp Compile,
yielding the matching function of the compiled pattern or none. -/
def newRoute {α : Type} (compile : String → Option (String → Option (List String)))
    (pattern : String) : Except String (route α) :=
  match compile pattern with
  | none => Except.error ("error parsing regexp: " ++ pattern)
  | some m => Except.ok { re := m, targets := [] }

/-- AddRoute of router from uweb.go: reuse the route stored under the exact
pattern string if it exists, otherwise compile a fresh one, then add the
target under the method key. -/
def router.AddRoute {α : Type} (compile : String → Option (String → Option (List String)))
    (st : routerState α) (pattern method : String) (target : α) :
    Except String (routerState α) :=
  match lookupStr st.routes pattern with
  | some r =>
      Except.ok { routes := insertStr st.routes pattern (r.AddTarget method target) }
  | none =>
      match newRoute compile pattern with
      | Except.error e => Except.error e
      | Except.ok r =>
          Except.ok { routes := insertStr st.routes pattern (r.AddTarget method target) }

/-- Outcome of one registration call as seen by the caller: a new router
state, an error value returned normally, or a panic escaping the call. -/
inductive RegOutcome (α : Type) where
  | ok (st : routerState α)
  | errReturned (msg : String)
  | panicked (msg : String)

/-- Whether a registration outcome is an error returned to the caller. -/
def RegOutcome.isErrReturned {α : Type} : RegOutcome α → Bool
  | RegOutcome.errReturned _ => true
  | _ => false

/-- Whether a registration outcome added the route successfully. -/
def RegOutcome.isOk {α : Type} : RegOutcome α → Bool
  | RegOutcome.ok _ => true
  | _ => false

/-- addRoute of App from uweb.go: wrapTarget runs first and panics on an
invalid signature, before the router is touched; only then does AddRoute
run, whose compile failure is returned as an error. -/
def App.addRoute {α : Type} (compile : String → Option (String → Option (List String)))
    (st : routerState α) (pattern method : String) (sig : List ArgType) (target : α) :
    RegOutcome α :=
  if wrapTargetValid sig then
    match router.AddRoute compile st pattern method target with
    | Except.error e => RegOutcome.errReturned e
    | Except.ok st2 => RegOutcome.ok st2
  else RegOutcome.panicked invalidTargetMsg

/-- Route of App from uweb.go: register for the ANY method. -/
def App.Route {α : Type} (compile : String → Option (String → Option (List String)))
    (st : routerState α) (pattern : String) (sig : List ArgType) (target : α) :
    RegOutcome α :=
  App.addRoute compile st pattern "ANY" sig target

/-- Get of App from uweb.go: register for the GET method. -/
def App.Get {α : Type} (compile : String → Option (String → Option (List String)))
    (st : routerState α) (pattern : String) (sig : List ArgType) (target : α) :
    RegOutcome α :=
  App.addRoute compile st pattern "GET" sig target

/-- Substring containment: sub occurs contiguously inside s. -/
def containsSub (s sub : String) : Prop :=
  ∃ pre post : String, s = pre ++ sub ++ post

/-- Appending strings is associative; used to rearrange rendered bodies. -/
theorem strAppendAssoc (a b c : String) : a ++ b ++ c = a ++ (b ++ c) := by
  apply String.ext
  simp

/-- Every string contains itself. -/
theorem containsSub_self (s : String) : containsSub s s := by
  refine ⟨"", "", ?_⟩
  apply String.ext
  simp

/-- Containment is preserved by prepending text. -/
theorem containsSub_append_left (pre2 s sub : String) (h : containsSub s sub) :
    containsSub (pre2 ++ s) sub := by
  obtain ⟨p, q, hpq⟩ := h
  refine ⟨pre2 ++ p, q, ?_⟩
  rw [hpq]
  simp [strAppendAssoc]

/-- Containment is preserved by appending text. -/
theorem containsSub_append_right (s post2 sub : String) (h : containsSub s sub) :
    containsSub (s ++ post2) sub := by
  obtain ⟨p, q, hpq⟩ := h
  refine ⟨p, q ++ post2, ?_⟩
  rw [hpq]
  simp [strAppendAssoc]

/-- The ErrorResponse built by the recover block of findAndCall for a fault
that is neither a Response nor an ErrorResponse: a 500 whose message is
the fault description, whose content is Internal Server Error, and whose
stack is captured from the runtime with the first six lines stripped. -/
def crash500 (d rawStack : String) : ErrorResponse :=
  ErrorResponse.SetStack
    { NewError 500 d with
        response := { (NewError 500 d).response with Content := "Internal Server Error" } }
    true rawStack

/-- The recover block wraps an arbitrary fault exactly into crash500. -/
theorem recoveredValue_other (d rawStack : String) :
    recoveredValue (Fault.other d) rawStack = Value.errorResponse (crash500 d rawStack) := rfl

-- Concrete fixtures used by the closed theorems and witnesses below.

/-- A route whose pattern, like the expression caret-x, matches the path xy
with matched prefix x; registered first, target number 1. -/
def c1routeA : route Nat :=
  { re := fun p => if p = "xy" then some ["x"] else none, targets := [("ANY", 1)] }

/-- A route whose pattern, like the expression caret-xy, also matches the
path xy; registered second, target number 2. -/
def c1routeB : route Nat :=
  { re := fun p => if p = "xy" then some ["xy"] else none, targets := [("ANY", 2)] }

/-- A target that aborts with 503, mirroring the abort view of the tests. -/
def abortTarget : TargetFun := fun ctx _ => (ctx, Out.panicked (Abort 503 "the system is down"))

/-- Route serving abortTarget for any method on the path abort/. -/
def abortRoute : route TargetFun :=
  { re := fun p => if p = "abort/" then some ["abort/"] else none,
    targets := [("ANY", abortTarget)] }

/-- A GET-only target returning the text of the head2 test route. -/
def c8getTarget : TargetFun := fun ctx _ => (ctx, Out.ok [Value.str "test get"])

/-- Route with a GET target and no HEAD target, like head2 in the tests. -/
def c8route : route TargetFun :=
  { re := fun p => if p = "head2/" then some ["head2/"] else none,
    targets := [("GET", c8getTarget)] }

/-- A route holding only a POST target, for the 405 witness. -/
def c6route : route TargetFun :=
  { re := fun p => if p = "only/" then some ["only/"] else none,
    targets := [("POST", fun ctx _ => (ctx, Out.ok [Value.str "post"]))] }

/-- A compile function standing for regexp Compile always succeeding, used
by registration facts that do not depend on the pattern. -/
def compileAny : String → Option (String → Option (List String)) :=
  fun _ => some (fun _ => none)

/-- The empty router of a fresh App, instantiated with number targets. -/
def emptyRouterNat : routerState Nat := { routes := [] }

/--
C1.  The claim reads FindTarget as evaluating Routes in registration order,
so that of two matching Routes the earlier-registered one always wins.  The
routes field of router in uweb.go is a Go map keyed by pattern, and
FindTarget ranges over that map; Go deliberately leaves map iteration order
unspecified, so the first matching route depends on the order the map
presents, not on registration order.  Here c1routeA is registered before
c1routeB and both match the path xy: when the map presents them in
registration order target 1 wins, and when it presents them reversed
target 2 wins, so the earlier-registered route does not win in general.
The spec states registration order as an invariant and an earlier revision
of the module kept routes in an ordered slice, so this is recorded as a
divergence of the code from the intended behavior.
-/
theorem findTarget_depends_on_map_iteration_order :
    router.FindTarget [c1routeA, c1routeB] "xy" "GET" = RouteResult.found 1 [] ∧
    router.FindTarget [c1routeB, c1routeA] "xy" "GET" = RouteResult.found 2 [] ∧
    (2 : Nat) ≠ 1 := by
  refine ⟨by decide, by decide, by decide⟩

/--
C2 counterexample.  The claim says an invalid target signature makes the
registration call return the InvalidTargetSignature error to the caller.
In uweb.go, wrapTarget panics on an invalid signature; addRoute never
returns an error for it (errors are returned only for pattern-compile
failures), and the TestInvalidInputs test expects exactly this panic.
Moreover the validation accepts a signature whose first non-context
parameter is a string slice even when junk parameters follow, so the
accepted set is wider than the claimed shape.
-/
theorem invalid_signature_registration_cex :
    App.addRoute compileAny emptyRouterNat "^test_fail" "ANY" [ArgType.other "int"] 0 =
      RegOutcome.panicked invalidTargetMsg ∧
    (App.addRoute compileAny emptyRouterNat "^test_fail" "ANY"
        [ArgType.other "int"] 0).isErrReturned = false ∧
    (App.addRoute compileAny emptyRouterNat "^p" "ANY"
        [ArgType.stringSlice, ArgType.other "int"] 0).isOk = true :=
  ⟨rfl, rfl, rfl⟩

/--
C2, amended.  A Target whose parameter list fails the wrapTarget validation
(after an optional leading Context pointer the remaining parameters are
neither all of string kind nor led by a string slice) makes every
registration call panic with the invalid-target message, rather than
returning an error, and nothing is ever added to the router: the panic
happens in wrapTarget before AddRoute runs.
-/
theorem invalid_signature_panics_never_added {α : Type}
    (compile : String → Option (String → Option (List String)))
    (st : routerState α) (pattern method : String) (sig : List ArgType) (target : α)
    (hbad : wrapTargetValid sig = false) :
    App.addRoute compile st pattern method sig target = RegOutcome.panicked invalidTargetMsg ∧
    (∀ st2, App.addRoute compile st pattern method sig target ≠ RegOutcome.ok st2) ∧
    (App.addRoute compile st pattern method sig target).isErrReturned = false := by
  refine ⟨by simp [App.addRoute, hbad], fun st2 => by simp [App.addRoute, hbad], ?_⟩
  simp [App.addRoute, hbad, RegOutcome.isErrReturned]

/-- Witness for the amended C2 theorem at the signature of a function taking
a single int, the shape rejected in TestInvalidInputs. -/
theorem invalid_signature_panics_never_added_witness :
    App.addRoute compileAny emptyRouterNat "^valid/$" "GET" [ArgType.other "int"] 7 =
      RegOutcome.panicked invalidTargetMsg ∧
    (∀ st2, App.addRoute compileAny emptyRouterNat "^valid/$" "GET" [ArgType.other "int"] 7 ≠
      RegOutcome.ok st2) ∧
    (App.addRoute compileAny emptyRouterNat "^valid/$" "GET"
        [ArgType.other "int"] 7).isErrReturned = false :=
  invalid_signature_panics_never_added compileAny emptyRouterNat "^valid/$" "GET"
    [ArgType.other "int"] 7 (by decide)

/--
C6.  Method resolution for the first route whose pattern matches the path
follows the priority: the exact upper-cased method key first, then the GET
key but only when the method is HEAD, then the ANY key; when none of the
three keys holds a target, FindTarget aborts with the 405 ErrorResponse,
and findAndCall turns that abort into the recovered 405 value without
invoking any target and without touching the context.
-/
theorem method_fallback_order
    (rs : List (route TargetFun)) (path method : String) (r : route TargetFun)
    (args : List String)
    (hmatch : findFirstMatch rs path = some (r, args)) :
    (∀ t, lookupStr r.targets (toUpperStr method) = some t →
        router.FindTarget rs path method = RouteResult.found t args) ∧
    (lookupStr r.targets (toUpperStr method) = none → toUpperStr method = "HEAD" →
        ∀ t, lookupStr r.targets "GET" = some t →
          router.FindTarget rs path method = RouteResult.found t args) ∧
    (lookupStr r.targets (toUpperStr method) = none →
        (if toUpperStr method = "HEAD" then lookupStr r.targets "GET" else none) = none →
        ∀ t, lookupStr r.targets "ANY" = some t →
          router.FindTarget rs path method = RouteResult.found t args) ∧
    (lookupStr r.targets (toUpperStr method) = none →
        (if toUpperStr method = "HEAD" then lookupStr r.targets "GET" else none) = none →
        lookupStr r.targets "ANY" = none →
        router.FindTarget rs path method =
          RouteResult.aborted (NewError 405 "Method not allowed") ∧
        ∀ (rawStack : String) (ctx : Context), ctx.Path = path → ctx.Method = method →
          App.findAndCall rs rawStack ctx =
            (ctx, [Value.errorResponse (NewError 405 "Method not allowed")])) := by
  refine ⟨?_, ?_, ?_, ?_⟩
  · intro t ht
    simp [router.FindTarget, hmatch, route.TargetForMethod, ht]
  · intro hnone hhead t ht
    have hnone2 : lookupStr r.targets "HEAD" = none := hhead ▸ hnone
    simp [router.FindTarget, hmatch, route.TargetForMethod, hnone, hnone2, hhead, ht]
  · intro hnone hget t ht
    simp [router.FindTarget, hmatch, route.TargetForMethod, hnone, hget, ht]
  · intro hnone hget hany
    have hfind : router.FindTarget rs path method =
        RouteResult.aborted (NewError 405 "Method not allowed") := by
      simp [router.FindTarget, hmatch, route.TargetForMethod, hnone, hget, hany]
    refine ⟨hfind, ?_⟩
    intro rawStack ctx hp hm
    simp [App.findAndCall, hp, hm, hfind, recoveredValue]

/-- Witness for C6: a GET request to a route that has only a POST target is
rejected with the 405 abort, and no target runs. -/
theorem method_fallback_order_witness :
    router.FindTarget [c6route] "only/" "GET" =
      RouteResult.aborted (NewError 405 "Method not allowed") ∧
    App.findAndCall [c6route] "" (NewContext "GET" "only/") =
      (NewContext "GET" "only/", [Value.errorResponse (NewError 405 "Method not allowed")]) := by
  have h := method_fallback_order [c6route] "only/" "GET" c6route [] rfl
  have h4 := h.2.2.2 rfl rfl rfl
  exact ⟨h4.1, h4.2 "" (NewContext "GET" "only/") rfl rfl⟩

/--
C8.  First half of the claim holds: a HEAD request to a route with a GET
target and no HEAD target resolves to the GET target.  The second half
fails on the code in uweb.go: WriteResponse writes the body bytes
unconditionally and never inspects the request method, so the response
emitted for the HEAD request carries the full non-empty GET body.  The
TestHeadResponses test of the repository asserts that the recorded body of
such a request is empty, so the code contradicts its own test suite here.
-/
theorem head_fallback_get_writes_nonempty_body :
    lookupStr c8route.targets "HEAD" = none ∧
    route.TargetForMethod c8route "HEAD" = some c8getTarget ∧
    App.Handle [c8route] [] false 1 "" (NewContext "HEAD" "head2/") =
      Out.ok { NewResponse with Content := "test get" } ∧
    (Response.WriteResponse { NewResponse with Content := "test get" }).body = "test get" ∧
    "test get" ≠ "" := by
  refine ⟨rfl, rfl, rfl, rfl, by decide⟩

/-- A target returning a value of a type unknown to cast on which the JSON
serialization fails, as a channel value would in Go. -/
def badJsonTarget : TargetFun := fun ctx _ => (ctx, Out.ok [Value.unserializable "chan int"])

/-- Route serving badJsonTarget on the path badjson/. -/
def badJsonRoute : route TargetFun :=
  { re := fun p => if p = "badjson/" then some ["badjson/"] else none,
    targets := [("ANY", badJsonTarget)] }

/-- A target whose function returns two values. -/
def twoValTarget : TargetFun := fun ctx _ => (ctx, Out.ok [Value.str "a", Value.str "b"])

/-- Route serving twoValTarget on the path two/. -/
def twoValRoute : route TargetFun :=
  { re := fun p => if p = "two/" then some ["two/"] else none,
    targets := [("ANY", twoValTarget)] }

/-- An ErrorResponse carrying its own custom header, for the merge frame
facts: the header must not survive the merge. -/
def er418 : ErrorResponse :=
  { response := { header := [("X-Custom", ["v"])], Code := 418, Content := "teapot" },
    Stack := "",
    Message := "teapot" }

/--
C9.  When cast processes an ErrorResponse, the merge into the in-progress
Response copies only the status code: the draft keeps its own headers and
its own content, and the headers carried by the ErrorResponse are dropped.
The final Response of the default error path therefore carries the header
list of the draft unchanged, the code of the ErrorResponse, and the
rendered default body; nothing of the ErrorResponse headers is
transferred.
-/
theorem merge_copies_only_status_code
    (handlers : HandlerMap) (debug : Bool) (f : Nat) (ctx : Context) (er : ErrorResponse)
    (hnoh : lookupInt handlers er.response.Code = none) :
    (ctx.Response.Merge er.response).header = ctx.Response.header ∧
    (ctx.Response.Merge er.response).Content = ctx.Response.Content ∧
    (ctx.Response.Merge er.response).Code = er.response.Code ∧
    cast handlers debug (f + 1) ctx [Value.errorResponse er] =
      Out.ok { header := ctx.Response.header, Code := er.response.Code,
               Content := defaultErrorBody er.response.Code er.response.Content
                            (errorDetail debug er) } := by
  refine ⟨rfl, rfl, rfl, ?_⟩
  simp [cast, hnoh, defaultErrorHandler, Response.Merge]

/-- Witness for C9 at an ErrorResponse carrying a custom header of its own:
the final headers are those of the fresh draft, not of the ErrorResponse. -/
theorem merge_copies_only_status_code_witness :
    (NewResponse.Merge er418.response).header = NewResponse.header ∧
    (NewResponse.Merge er418.response).Content = NewResponse.Content ∧
    (NewResponse.Merge er418.response).Code = er418.response.Code ∧
    cast [] false 1 (NewContext "GET" "tea/") [Value.errorResponse er418] =
      Out.ok { header := NewResponse.header, Code := er418.response.Code,
               Content := defaultErrorBody er418.response.Code er418.response.Content
                            (errorDetail false er418) } :=
  merge_copies_only_status_code [] false 0 (NewContext "GET" "tea/") er418 rfl

/--
C10.  A registered target whose function returns more than one value makes
cast panic with the too-many-values message.  Handle calls cast only after
findAndCall has returned, so the deferred recover of findAndCall is no
longer active and the panic leaves Handle without being converted into a
500 Response.
-/
theorem too_many_values_panic_escapes_handle
    (rs : List (route TargetFun)) (handlers : HandlerMap) (debug : Bool) (fuel : Nat)
    (rawStack : String) (ctx ctx2 : Context) (t : TargetFun) (args : List String)
    (v1 v2 : Value) (vs : List Value)
    (hfind : router.FindTarget rs ctx.Path ctx.Method = RouteResult.found t args)
    (hcall : t ctx args = (ctx2, Out.ok (v1 :: v2 :: vs))) :
    App.Handle rs handlers debug fuel rawStack ctx =
      Out.panicked (Fault.other "Too many values returned from target") ∧
    (App.Handle rs handlers debug fuel rawStack ctx).isOkResponse = false := by
  have h : App.Handle rs handlers debug fuel rawStack ctx =
      Out.panicked (Fault.other "Too many values returned from target") := by
    simp [App.Handle, App.findAndCall, hfind, hcall, cast]
  exact ⟨h, by rw [h]; rfl⟩

/-- Witness for C10: a concrete two-value target makes Handle panic. -/
theorem too_many_values_panic_escapes_handle_witness :
    App.Handle [twoValRoute] [] false 1 "" (NewContext "GET" "two/") =
      Out.panicked (Fault.other "Too many values returned from target") ∧
    (App.Handle [twoValRoute] [] false 1 "" (NewContext "GET" "two/")).isOkResponse = false :=
  too_many_values_panic_escapes_handle [twoValRoute] [] false 1 ""
    (NewContext "GET" "two/") (NewContext "GET" "two/") twoValTarget []
    (Value.str "a") (Value.str "b") [] rfl rfl

/--
C3 counterexample.  The claim says a failing structured serialization still
ends in a Response rather than escaping the core.  In uweb.go the failure
is a panic raised inside cast, and cast runs in Handle after the recover
of findAndCall has already returned, so the panic escapes Handle and no
Response is produced for the request.
-/
theorem serialization_failure_not_recovered_cex :
    App.Handle [badJsonRoute] [] false 1 "" (NewContext "GET" "badjson/") =
      Out.panicked (Fault.other "Unknown response type returned from view function") ∧
    (App.Handle [badJsonRoute] [] false 1 ""
        (NewContext "GET" "badjson/")).isOkResponse = false :=
  ⟨rfl, rfl⟩

/--
C3, amended.  When the single value returned by the resolved target is of
an unknown type whose structured serialization fails, cast panics with the
unknown-response-type message and that panic escapes Handle unrecovered,
so no Response reaches the transport for that request; requests that avoid
the panicking branches of cast still receive exactly one Response.
-/
theorem serialization_failure_escapes_handle
    (rs : List (route TargetFun)) (handlers : HandlerMap) (debug : Bool) (fuel : Nat)
    (rawStack : String) (ctx ctx2 : Context) (t : TargetFun) (args : List String)
    (ty : String)
    (hfind : router.FindTarget rs ctx.Path ctx.Method = RouteResult.found t args)
    (hcall : t ctx args = (ctx2, Out.ok [Value.unserializable ty])) :
    App.Handle rs handlers debug fuel rawStack ctx =
      Out.panicked (Fault.other "Unknown response type returned from view function") ∧
    (App.Handle rs handlers debug fuel rawStack ctx).isOkResponse = false := by
  have h : App.Handle rs handlers debug fuel rawStack ctx =
      Out.panicked (Fault.other "Unknown response type returned from view function") := by
    simp [App.Handle, App.findAndCall, hfind, hcall, cast]
  exact ⟨h, by rw [h]; rfl⟩

/-- Witness for the amended C3 theorem at the concrete unserializable
fixture. -/
theorem serialization_failure_escapes_handle_witness :
    App.Handle [badJsonRoute] [] true 2 "stack" (NewContext "GET" "badjson/") =
      Out.panicked (Fault.other "Unknown response type returned from view function") ∧
    (App.Handle [badJsonRoute] [] true 2 "stack"
        (NewContext "GET" "badjson/")).isOkResponse = false :=
  serialization_failure_escapes_handle [badJsonRoute] [] true 2 "stack"
    (NewContext "GET" "badjson/") (NewContext "GET" "badjson/") badJsonTarget []
    "chan int" rfl rfl

/--
C4.  An Abort raised at any call depth inside the resolved target
propagates as a panic carrying the fresh ErrorResponse, is recovered by
findAndCall, and, with no custom handler registered for the code, the
default error handler renders the page: the final Response carries exactly
the aborted status code and its body contains the abort message verbatim.
-/
theorem abort_yields_status_and_message
    (rs : List (route TargetFun)) (handlers : HandlerMap) (debug : Bool)
    (f : Nat) (rawStack : String) (ctx ctx2 : Context) (t : TargetFun)
    (args : List String) (code : Int) (msg : String)
    (hfind : router.FindTarget rs ctx.Path ctx.Method = RouteResult.found t args)
    (hcall : t ctx args = (ctx2, Out.panicked (Abort code msg)))
    (hnoh : lookupInt handlers code = none) :
    ∃ resp : Response,
      App.Handle rs handlers debug (f + 1) rawStack ctx = Out.ok resp ∧
      resp.Code = code ∧ containsSub resp.Content msg := by
  refine ⟨{ ctx2.Response with Code := code, Content := defaultErrorBody code msg "" },
    ?_, rfl, ?_⟩
  · simp [App.Handle, App.findAndCall, hfind, hcall, Abort, recoveredValue, cast,
      Response.Merge, NewError, defaultErrorHandler, errorDetail, hnoh,
      bne_self_eq_false]
  · exact ⟨errorBodyPre code, errorBodyPost "", rfl⟩

/-- Witness for C4 at the concrete 503 abort of the test suite. -/
theorem abort_yields_status_and_message_witness :
    ∃ resp : Response,
      App.Handle [abortRoute] [] false 1 "" (NewContext "GET" "abort/") = Out.ok resp ∧
      resp.Code = 503 ∧ containsSub resp.Content "the system is down" :=
  abort_yields_status_and_message [abortRoute] [] false 0 "" (NewContext "GET" "abort/")
    (NewContext "GET" "abort/") abortTarget [] 503 "the system is down" rfl rfl rfl

/-- A target that panics with a plain fault, like the panic view of the
tests. -/
def crashTarget : TargetFun := fun ctx _ => (ctx, Out.panicked (Fault.other "die!!"))

/-- Route serving crashTarget on the path panic-slash. -/
def crashRoute : route TargetFun :=
  { re := fun p => if p = "panicpath/" then some ["panicpath/"] else none,
    targets := [("ANY", crashTarget)] }

/-- A raw runtime stack of eight lines; the first six are what the cleaning
loop of SetStack strips. -/
def rawStack7 : String := "l1\nl2\nl3\nl4\nl5\nl6\nframe1\nframe2"

/--
C5 counterexample.  The recover block of findAndCall calls SetStack
unconditionally; findAndCall takes no debug flag at all, mirroring the
source, whose recovery code reads no configuration.  Running the pipeline
around a panicking target with debug mode off everywhere still attaches a
non-empty cleaned stack to the recovered ErrorResponse, refuting the
attached-only-when-debug-is-active part of the claim; only the rendering
is debug-dependent, as the final non-debug body without a stack section
shows.
-/
theorem stack_attached_without_debug_cex :
    App.findAndCall [crashRoute] rawStack7 (NewContext "GET" "panicpath/") =
      (NewContext "GET" "panicpath/", [Value.errorResponse (crash500 "die!!" rawStack7)]) ∧
    (crash500 "die!!" rawStack7).Stack = "frame1\nframe2" ∧
    (crash500 "die!!" rawStack7).Stack ≠ "" ∧
    App.Handle [crashRoute] [] false 1 rawStack7 (NewContext "GET" "panicpath/") =
      Out.ok { NewResponse with
               Code := 500,
               Content := defaultErrorBody 500 "Internal Server Error" "" } := by
  refine ⟨rfl, by decide, by decide, rfl⟩

/--
C5, amended.  A fault that is neither a Response nor an ErrorResponse is
captured and wrapped into an ErrorResponse with status 500 whose message
is the fault description and whose content is Internal Server Error; the
cleaned stack trace is attached unconditionally, independent of debug
mode.  Rendering is what depends on debug mode: with debug on, no custom
500 handler, and a non-empty captured stack, the final 500 body contains
the stack section between pre tags.
-/
theorem panic_fault_500_stack_rendered_in_debug
    (rs : List (route TargetFun)) (handlers : HandlerMap) (f : Nat)
    (rawStack : String) (ctx ctx2 : Context) (t : TargetFun) (args : List String)
    (d : String)
    (hfind : router.FindTarget rs ctx.Path ctx.Method = RouteResult.found t args)
    (hcall : t ctx args = (ctx2, Out.panicked (Fault.other d)))
    (hnoh : lookupInt handlers 500 = none)
    (hstack : stripLines 6 rawStack ≠ "") :
    App.findAndCall rs rawStack ctx =
      (ctx2, [Value.errorResponse (crash500 d rawStack)]) ∧
    (crash500 d rawStack).response.Code = 500 ∧
    (crash500 d rawStack).Message = d ∧
    (crash500 d rawStack).Stack = stripLines 6 rawStack ∧
    (∃ resp : Response,
       App.Handle rs handlers true (f + 1) rawStack ctx = Out.ok resp ∧
       resp.Code = 500 ∧
       containsSub resp.Content ("<pre>" ++ stripLines 6 rawStack ++ "</pre>")) := by
  have hfc : App.findAndCall rs rawStack ctx =
      (ctx2, [Value.errorResponse (crash500 d rawStack)]) := by
    simp [App.findAndCall, hfind, hcall, recoveredValue_other]
  refine ⟨hfc, rfl, rfl, rfl, ?_⟩
  refine ⟨{ ctx2.Response with
            Code := 500,
            Content := defaultErrorBody 500 "Internal Server Error"
              ("<div>" ++ d ++ "</div><pre>" ++ stripLines 6 rawStack ++ "</pre>") },
    ?_, rfl, ?_⟩
  · have hdet : errorDetail true (crash500 d rawStack) =
        "<div>" ++ d ++ "</div><pre>" ++ stripLines 6 rawStack ++ "</pre>" := by
      simp [errorDetail, crash500, ErrorResponse.SetStack, NewError, bne_iff_ne, hstack]
    have hcode : (crash500 d rawStack).response.Code = 500 := rfl
    have hcontent : (crash500 d rawStack).response.Content = "Internal Server Error" := rfl
    simp [App.Handle, hfc, cast, Response.Merge, hcode, hcontent, hnoh,
      defaultErrorHandler, hdet]
  · have hdetail : "<div>" ++ d ++ "</div><pre>" ++ stripLines 6 rawStack ++ "</pre>" =
        ("<div>" ++ d ++ "</div>") ++
          ("<pre>" ++ stripLines 6 rawStack ++ "</pre>") := by
      apply String.ext
      simp
    have h1 : containsSub
        ("<div>" ++ d ++ "</div><pre>" ++ stripLines 6 rawStack ++ "</pre>")
        ("<pre>" ++ stripLines 6 rawStack ++ "</pre>") := by
      rw [hdetail]
      exact containsSub_append_left _ _ _
        (containsSub_self ("<pre>" ++ stripLines 6 rawStack ++ "</pre>"))
    exact containsSub_append_left _ _ _
      (containsSub_append_right _ _ _
        (containsSub_append_left "</h1>\n\t\t" _ _ h1))

/-- Witness for the amended C5 theorem at the concrete crash fixture. -/
theorem panic_fault_500_stack_rendered_in_debug_witness :
    App.findAndCall [crashRoute] rawStack7 (NewContext "GET" "panicpath/") =
      (NewContext "GET" "panicpath/", [Value.errorResponse (crash500 "die!!" rawStack7)]) ∧
    (crash500 "die!!" rawStack7).response.Code = 500 ∧
    (crash500 "die!!" rawStack7).Message = "die!!" ∧
    (crash500 "die!!" rawStack7).Stack = stripLines 6 rawStack7 ∧
    (∃ resp : Response,
       App.Handle [crashRoute] [] true 1 rawStack7 (NewContext "GET" "panicpath/") =
         Out.ok resp ∧
       resp.Code = 500 ∧
       containsSub resp.Content ("<pre>" ++ stripLines 6 rawStack7 ++ "</pre>")) :=
  panic_fault_500_stack_rendered_in_debug [crashRoute] [] 0 rawStack7
    (NewContext "GET" "panicpath/") (NewContext "GET" "panicpath/") crashTarget []
    "die!!" rfl rfl rfl (by decide)

/-- The prebuilt Response returned by the 401 handler of the tests. -/
def resp999 : Response := { NewResponse with Code := 999, Content := "not authed" }

/-- The custom 401 handler of the tests: ignore the ErrorResponse and
return a prebuilt Response with code 999. -/
def error401 : ErrHandler := fun ctx _ => (ctx, Out.ok [Value.response resp999])

/--
C7.  When a custom error handler is registered for the status code of the
ErrorResponse being cast, cast merges the code into the draft, invokes the
registered handler, and re-casts whatever the handler produced; the
default error handler is not applied.  In particular a handler returning a
prebuilt Response makes exactly that Response the final result.
-/
theorem custom_error_handler_overrides_default
    (handlers : HandlerMap) (debug : Bool) (f : Nat) (ctx : Context)
    (er : ErrorResponse) (eh : ErrHandler)
    (hreg : lookupInt handlers er.response.Code = some eh) :
    (cast handlers debug (f + 1) ctx [Value.errorResponse er] =
       (match eh { ctx with Response := ctx.Response.Merge er.response } er with
        | (ctx3, Out.ok vals) => cast handlers debug f ctx3 vals
        | (_, Out.panicked p) => Out.panicked p)) ∧
    (∀ (ctx3 : Context) (r : Response),
       eh { ctx with Response := ctx.Response.Merge er.response } er =
         (ctx3, Out.ok [Value.response r]) →
       cast handlers debug (f + 1) ctx [Value.errorResponse er] = Out.ok r) := by
  constructor
  · simp [cast, hreg]
  · intro ctx3 r hh
    simp [cast, hreg, hh]

/-- Witness for C7 at the 401 fixture of the tests: the final Response is
exactly the prebuilt 999 Response of the custom handler. -/
theorem custom_error_handler_overrides_default_witness :
    cast [(401, error401)] false 1 (NewContext "GET" "noauth/")
      [Value.errorResponse (NewError 401 "never seen")] = Out.ok resp999 :=
  (custom_error_handler_overrides_default [(401, error401)] false 0
      (NewContext "GET" "noauth/") (NewError 401 "never seen") error401 rfl).2
    { NewContext "GET" "noauth/" with
        Response := (NewContext "GET" "noauth/").Response.Merge
          (NewError 401 "never seen").response }
    resp999 rfl

end Uweb
